import Mathlib

/-!
Shallow embedding of the `password-responder` SMS gatekeeper.

The repository is a Vercel/Twilio webhook that decides, per inbound SMS,
whether to reply with a shared password, reply with help text, reply with a
generic fallback, or stay silent, driven by counters held in a Redis store.

We embed the decision pipeline of `api/sms.js` (the draft at lines 44-191,
which uses `lib/config.js`, `lib/optout.js`, `lib/abuse.js` lines 3-48 and
`lib/throttle.js` lines 31-59) as `handlerV1`, and the later draft of the
pipeline (`api/sms.js` lines 214-393, which uses the abuse guard of
`unnamed/part_003` lines 49-107 with the `KEYS`/`ABUSE` constants of
`lib/config.js` lines 60-85 and the hash-based throttle of `lib/throttle.js`
lines 6-28) as `handlerV2`.

The Redis store is modelled as a record of total maps; an absent numeric key
reads as 0 and an absent flag reads as false, matching the `?? 0` /
truthiness handling in the source.  `expire` calls are not modelled (the
pure store has no time-based eviction), except for the flood-guard keys
where a claim is about the TTL writes themselves: for those we keep ghost
fields recording the last TTL written.
-/

namespace PasswordResponder

/-! ## String utilities: JS `String.prototype.includes` and the regexes -/

/-- `isPrefixL n l` is true when the char list `n` is an initial segment of
`l`; building block for the substring test. -/
def isPrefixL : List Char → List Char → Bool
  | [], _ => true
  | _ :: _, [] => false
  | a :: as, b :: bs => a == b && isPrefixL as bs

/-- `hasSubAux n l`: the char list `n` occurs contiguously somewhere in `l`. -/
def hasSubAux (needle : List Char) : List Char → Bool
  | [] => isPrefixL needle []
  | c :: rest => isPrefixL needle (c :: rest) || hasSubAux needle rest

/-- JS `hay.includes(needle)` (contiguous substring test). -/
def includes (hay needle : String) : Bool :=
  hasSubAux needle.data hay.data

/-- JS `body.toUpperCase()` (ASCII uppercasing, as used on the keyword
lists); written as a structural map over the character list so that it
evaluates by kernel reduction. -/
def upperJS (s : String) : String :=
  ⟨s.data.map Char.toUpper⟩

/-- JS `words.some((k) => upper.includes(k))` as used for the keyword lists. -/
def someIncludes (words : List String) (upper : String) : Bool :=
  words.any (fun k => includes upper k)

/-- The regex `/^\+1\d{10}$/` of the abuse guards (US E.164 format). -/
def isUSFormat (p : String) : Bool :=
  match p.data with
  | '+' :: '1' :: rest => rest.length == 10 && rest.all (fun c => c.isDigit)
  | _ => false

/-- Word characters for the `\b` boundary in the URL regex. -/
def isWordChar (c : Char) : Bool :=
  c.isAlphanum || c == '_'

/-- Does the char list start with `http://` or `https://`, case-insensitively
(the `https?:\/\//i` part of the URL regex)? -/
def startsURL : List Char → Bool
  | a :: b :: c :: d :: rest =>
    if a.toLower == 'h' && b.toLower == 't' && c.toLower == 't' && d.toLower == 'p' then
      match rest with
      | e :: r2 =>
        if e.toLower == 's' then
          match r2 with
          | ':' :: '/' :: '/' :: _ => true
          | _ => false
        else
          match rest with
          | ':' :: '/' :: '/' :: _ => true
          | _ => false
      | [] => false
    else false
  | _ => false

/-- Scan for a match of `/\bhttps?:\/\//i`: `prev` is the character just
before the current position (`none` at the start of the string); since `h`
is a word character, the `\b` holds exactly when `prev` is absent or a
non-word character. -/
def hasURLAux (prev : Option Char) : List Char → Bool
  | [] => false
  | c :: rest =>
    ((match prev with
      | none => true
      | some p => !(isWordChar p)) && startsURL (c :: rest))
    || hasURLAux (some c) rest

/-- JS `/\bhttps?:\/\//i.test(body)` of the content-sanity stage. -/
def hasURL (body : String) : Bool :=
  hasURLAux none body.data

/-! ## Configuration (`lib/config.js`, environment defaults) -/

/-- `process.env.SITE_PASSWORD || 'PASSWORD'` (default). -/
def SITE_PASSWORD : String := "PASSWORD"

/-- `MIN_REPLY_COOLDOWN_MIN` env default 3 (minutes). -/
def MIN_REPLY_COOLDOWN_MIN : Nat := 3

/-- `MAX_PER_NUMBER_PER_DAY` env default 3. -/
def MAX_PER_NUMBER_PER_DAY : Nat := 3

/-- `GLOBAL_MAX_PER_DAY` env default 2000. -/
def GLOBAL_MAX_PER_DAY : Nat := 2000

/-- `ALLOW_PASSWORD_REJOIN = true` in `lib/config.js`. -/
def ALLOW_PASSWORD_REJOIN : Bool := true

/-- Opt-out keyword list of `lib/config.js`. -/
def OPT_OUTS : List String := ["STOP", "STOPALL", "UNSUBSCRIBE", "CANCEL", "END", "QUIT"]

/-- Opt-in keyword list of `lib/config.js`. -/
def OPT_INS : List String := ["START", "UNSTOP", "YES"]

/-- Help keyword list of `lib/config.js`. -/
def HELP_WORDS : List String := ["HELP", "INFO"]

/-- `ABUSE.UNKNOWN_WINDOW_MINUTES = 5` (size of global rolling flood window). -/
def UNKNOWN_WINDOW_MINUTES : Nat := 5

/-- `ABUSE.UNKNOWN_MESSAGE_THRESHOLD = 20` (flip defensive mode above this). -/
def UNKNOWN_MESSAGE_THRESHOLD : Nat := 20

/-- `ABUSE.DEFENSIVE_MODE_DURATION_SEC = 3600` (defensive mode lasts 1 hour). -/
def DEFENSIVE_MODE_DURATION_SEC : Nat := 3600

/-- `ABUSE.MAX_MESSAGES_PER_NUMBER = 5` (burst limit per number per window). -/
def MAX_MESSAGES_PER_NUMBER : Nat := 5

/-- `ABUSE.BURST_WINDOW_SECONDS = 60` (per-number burst window width). -/
def BURST_WINDOW_SECONDS : Nat := 60

/-- `ABUSE.MAX_MESSAGE_LENGTH = 160` (suspicious above this length). -/
def MAX_MESSAGE_LENGTH : Nat := 160

/-- `US_ONLY = true` in `lib/config.js`. -/
def US_ONLY : Bool := true

/-- Help reply text of the `api/sms.js` draft at lines 44-191. -/
def helpMessage : String :=
  "Robyn & Kingsley Wedding Website Password Responder. Reply STOP to opt out."

/-- Password reply text of the `api/sms.js` draft at lines 44-191. -/
def passwordMessage : String :=
  "Hi! Here’s the password: " ++ SITE_PASSWORD

/-- Fallback reply text for unknown numbers. -/
def fallbackMessage : String :=
  "We couldn’t match this number to our guest list. If this is a mistake, please contact Kingsley."

/-- `HELP_MESSAGE` default of the second `lib/config.js` draft. -/
def HELP_MESSAGE : String :=
  "Robyn & Kingsley Wedding Website Password Auto Reponder. Reply STOP to opt out."

/-- Password reply text of the `api/sms.js` draft at lines 214-393. -/
def passwordMessageV2 : String :=
  "Hi! Here’s the password to robyn-kingsley.wedding: " ++ SITE_PASSWORD

/-! ## The key-value store model -/

/-- The Redis state touched by the pipeline.  Each field models one key (or
one key family) of the store; numeric keys read 0 when absent, so they are
total maps into `Nat`.  `unknownWindowTTL`, `defensiveTTL` are ghost fields
recording the TTL (seconds) most recently written by `expire`/`set ... ex`
on the flood-guard keys. -/
structure Store where
  /-- Redis set `whitelist`. -/
  whitelist : List String
  /-- Keys `optout:{phone}` (truthy flag). -/
  optout : String → Bool
  /-- Redis set `optedout:index`. -/
  optedoutIndex : List String
  /-- Keys `block:{phone}` (truthy flag; the first `lib/abuse.js` blocklist). -/
  blockKey : String → Bool
  /-- Redis set `abuse:index` (permanent blocklist of `unnamed/part_003`). -/
  abuseIndex : List String
  /-- Keys `unkbucket:{bucket}` (first `lib/abuse.js` anomaly breaker). -/
  unkBucket : Nat → Nat
  /-- Key `defensive:mode` (truthy flag). -/
  defensiveMode : Bool
  /-- Ghost: TTL written with `defensive:mode`. -/
  defensiveTTL : Option Nat
  /-- Keys `bad:{phone}:{day}` (first `lib/abuse.js` content counter). -/
  badCount : String → String → Nat
  /-- Keys `burst:{phone}:{bucket}` (`unnamed/part_003` burst counters). -/
  burst : String → Nat → Nat
  /-- Key `unknownFlood:window` (`KEYS.UNKNOWN_WINDOW`, single rolling counter). -/
  unknownWindow : Nat
  /-- Ghost: TTL written on `unknownFlood:window` by `expire`. -/
  unknownWindowTTL : Option Nat
  /-- Hash `rl:num:{phone}` field `count` (hash-based throttle). -/
  hashCount : String → Nat
  /-- Hash `rl:num:{phone}` field `last` (ms; 0 when absent). -/
  hashLast : String → Nat
  /-- Hash `rl:num:{phone}` field `suspicious`. -/
  hashSuspicious : String → Nat
  /-- Keys `rl:global:{day}` (global daily reply counter). -/
  rlGlobal : String → Nat
  /-- Keys `rl:num:{phone}:{day}:count`. -/
  rlNumCount : String → String → Nat
  /-- Keys `rl:num:{phone}:{day}:last` (ms; 0 when absent). -/
  rlNumLast : String → String → Nat

/-! ## Responses and outcomes -/

/-- The four terminal outcomes of the decision pipeline (spec section 4.5). -/
inductive Outcome where
  | replySecret
  | replyHelp
  | replyFallback
  | silent
deriving DecidableEq, Repr

/-- The HTTP response the handler produces: `status`, the messages contained
in the transmitted body (`[]` for `res.status(204).end()`, which sends no
body), and the messages accumulated in the `twiml` object at the moment of
returning. -/
structure Resp where
  status : Nat
  sent : List String
  twiml : List String
deriving DecidableEq, Repr

/-- `res.status(200).send(twiml.toString())`: the accumulated messages go out. -/
def okResp (tw : List String) : Resp :=
  { status := 200, sent := tw, twiml := tw }

/-- `res.status(204).end()`: nothing is transmitted. -/
def noContent (tw : List String) : Resp :=
  { status := 204, sent := [], twiml := tw }

/-! ## Opt-out ledger (`lib/optout.js`) -/

/-- `recordOptOut(phone)`: set `optout:{phone}` (1-year TTL not modelled) and
add to `optedout:index`. -/
def recordOptOut (s : Store) (phone : String) : Store :=
  { s with
    optout := fun p => if p = phone then true else s.optout p,
    optedoutIndex := phone :: s.optedoutIndex }

/-- `clearOptOut(phone)`: delete `optout:{phone}` and remove from the index. -/
def clearOptOut (s : Store) (phone : String) : Store :=
  { s with
    optout := fun p => if p = phone then false else s.optout p,
    optedoutIndex := s.optedoutIndex.filter (fun p => !(p == phone)) }

/-- `isOptedOut(phone)`: truthiness of `optout:{phone}`. -/
def isOptedOut (s : Store) (phone : String) : Bool :=
  s.optout phone

/-! ## Abuse guard, first draft (`lib/abuse.js` lines 3-48) -/

/-- `runUnknownAbuseGuards({from, body, today})` of `lib/abuse.js`:
US-format gate, `block:{from}` check, 10-minute-bucket anomaly breaker
(threshold 100, defensive mode TTL 3600) and content sanity
(length > 160 or URL; 5 strikes add `block:{from}` and `abuse:index`).
Returns the mutated store and the `allow` flag. -/
def runUnknownAbuseGuards (s : Store) (frm body today : String) (now : Nat) :
    Store × Bool :=
  if !(isUSFormat frm) then (s, false)
  else if s.blockKey frm then (s, false)
  else
    let bucket := now / (10 * 60 * 1000)
    let unkCount := s.unkBucket bucket + 1
    let s1 := { s with unkBucket := fun b => if b = bucket then unkCount else s.unkBucket b }
    let s2 :=
      if unkCount > 100 then
        { s1 with defensiveMode := true, defensiveTTL := some 3600 }
      else s1
    if s2.defensiveMode then (s2, false)
    else if body.length > 160 || hasURL body then
      let bad := s2.badCount frm today + 1
      let s3 := { s2 with
        badCount := fun f d => if f = frm ∧ d = today then bad else s2.badCount f d }
      if bad ≥ 5 then
        ({ s3 with
            blockKey := fun f => if f = frm then true else s3.blockKey f,
            abuseIndex := frm :: s3.abuseIndex }, false)
      else (s3, false)
    else (s2, true)

/-! ## Throttle, day-keyed draft (`lib/throttle.js` lines 31-59) -/

/-- `getUnknownThrottleState({from, today})`: `mget` of the global daily
counter, the per-number daily counter and the last-reply timestamp
(absent keys read 0). -/
def getUnknownThrottleState (s : Store) (frm today : String) : Nat × Nat × Nat :=
  (s.rlGlobal today, s.rlNumCount frm today, s.rlNumLast frm today)

/-- `recordUnknownReply({globalKey, countKey, lastKey, now})`: increment the
global daily counter, increment the per-number counter, set the last-reply
timestamp to `now` (the three `expire 172800` refreshes are not modelled). -/
def recordUnknownReply (s : Store) (frm today : String) (now : Nat) : Store :=
  { s with
    rlGlobal := fun d => if d = today then s.rlGlobal d + 1 else s.rlGlobal d,
    rlNumCount := fun f d => if f = frm ∧ d = today then s.rlNumCount f d + 1 else s.rlNumCount f d,
    rlNumLast := fun f d => if f = frm ∧ d = today then now else s.rlNumLast f d }

/-- The throttle stage of `api/sms.js` lines 143-183: global daily cap,
cooldown, per-number cap, else fallback reply plus `recordUnknownReply`.
`tw` is the `twiml` accumulator at entry. -/
def unknownThrottle (s : Store) (frm today : String) (now : Nat) (tw : List String) :
    Store × Resp × Outcome :=
  let st := getUnknownThrottleState s frm today
  if GLOBAL_MAX_PER_DAY ≤ st.1 then (s, noContent tw, .silent)
  else if st.2.2 ≠ 0 ∧ now - st.2.2 < MIN_REPLY_COOLDOWN_MIN * 60 * 1000 then
    (s, noContent tw, .silent)
  else if MAX_PER_NUMBER_PER_DAY ≤ st.2.1 then (s, noContent tw, .silent)
  else
    (recordUnknownReply s frm today now, okResp (tw ++ [fallbackMessage]), .replyFallback)

/-! ## Decision pipeline, first draft (`api/sms.js` lines 44-191) -/

/-- The part of the `api/sms.js` (lines 121-183) handler after the keyword
gate: whitelist check (password reply), abuse guard, then throttles with the
fallback reply. -/
def handlerTail (s2 : Store) (frm body today : String) (now : Nat) (tw : List String) :
    Store × Resp × Outcome :=
  if s2.whitelist.contains frm then
    (s2, okResp (tw ++ [passwordMessage]), .replySecret)
  else
    let g := runUnknownAbuseGuards s2 frm body today now
    if !g.2 then (g.1, noContent tw, .silent)
    else unknownThrottle g.1 frm today now tw

/-- The handler of `api/sms.js` lines 44-191, after form parsing: `kw` is
`REQUIRED_TEXT_KEYWORD` (already uppercased by config; empty = disabled),
`frm`/`body` are the trimmed `From`/`Body` fields, `today` the day key and
`now` the millisecond clock.  Returns the mutated store, the HTTP response
and the outcome label of the terminal reached. -/
def handlerV1 (kw : String) (s : Store) (frm body today : String) (now : Nat) :
    Store × Resp × Outcome :=
  let upper := upperJS body
  let tw : List String := []
  if someIncludes OPT_OUTS upper then
    (recordOptOut s frm, noContent tw, .silent)
  else if someIncludes HELP_WORDS upper then
    (s, okResp (tw ++ [helpMessage]), .replyHelp)
  else
    let s1 := if someIncludes OPT_INS upper then clearOptOut s frm else s
    let optedOut := isOptedOut s1 frm
    if optedOut && !(ALLOW_PASSWORD_REJOIN && !(kw == "") && includes upper kw) then
      (s1, noContent tw, .silent)
    else
      let s2 := if optedOut then clearOptOut s1 frm else s1
      if !(kw == "") && !(includes upper kw) then (s2, noContent tw, .silent)
      else handlerTail s2 frm body today now tw

/-! ## Abuse guard, later draft (`unnamed/part_003` lines 4-107) -/

/-- `incrementGlobalUnknown` of `unnamed/part_003` lines 4-17: atomically
increment the single rolling-window key `unknownFlood:window`; on the first
increment in the window set its expiry to `UNKNOWN_WINDOW_MINUTES * 60`; if
the value exceeds `UNKNOWN_MESSAGE_THRESHOLD`, set `defensive:mode` with
TTL `DEFENSIVE_MODE_DURATION_SEC`.  Returns the new store and the count. -/
def incrementGlobalUnknown (s : Store) : Store × Nat :=
  let count := s.unknownWindow + 1
  let s1 := { s with
    unknownWindow := count,
    unknownWindowTTL :=
      if count = 1 then some (UNKNOWN_WINDOW_MINUTES * 60) else s.unknownWindowTTL }
  if count > UNKNOWN_MESSAGE_THRESHOLD then
    ({ s1 with defensiveMode := true, defensiveTTL := some DEFENSIVE_MODE_DURATION_SEC }, count)
  else (s1, count)

/-- `isBlocked(phoneNumber)`: membership in the `abuse:index` set. -/
def isBlocked (s : Store) (phone : String) : Bool :=
  s.abuseIndex.contains phone

/-- `permanentlyBlock(phoneNumber)`: add to `abuse:index` (no TTL), delete
the `burst:{phone}:*` keys and the `count`/`last`/`suspicious` fields of the
`rl:num:{phone}` hash (deleted numeric keys read back as 0). -/
def permanentlyBlock (s : Store) (phone : String) : Store :=
  { s with
    abuseIndex := phone :: s.abuseIndex,
    burst := fun f b => if f = phone then 0 else s.burst f b,
    hashCount := fun f => if f = phone then 0 else s.hashCount f,
    hashLast := fun f => if f = phone then 0 else s.hashLast f,
    hashSuspicious := fun f => if f = phone then 0 else s.hashSuspicious f }

/-- `incrSuspicious(phoneNumber)`: `hincrby` of the `suspicious` field of
`rl:num:{phone}` (TTL refresh not modelled); returns store and new value. -/
def incrSuspicious (s : Store) (phone : String) : Store × Nat :=
  let n := s.hashSuspicious phone + 1
  ({ s with hashSuspicious := fun f => if f = phone then n else s.hashSuspicious f }, n)

/-- Stages 4 and 5 of the `unnamed/part_003` abuse guard: the global flood
guard (`incrementGlobalUnknown` then the defensive-mode check) and the
content-sanity check (length or URL; 5 strikes block), applied to the store
`t` left by the burst stage. -/
def guardFloodContent (t : Store) (phone body : String) : Store × Bool :=
  let sg := (incrementGlobalUnknown t).1
  if sg.defensiveMode then (sg, false)
  else if body.length > MAX_MESSAGE_LENGTH || hasURL body then
    let sc := (incrSuspicious sg phone).1
    let badCount := (incrSuspicious sg phone).2
    if badCount ≥ 5 then (permanentlyBlock sc phone, false)
    else (sc, false)
  else (sg, true)

/-- `runUnknownAbuseGuards` of `unnamed/part_003` lines 49-107: US-format
gate (`US_ONLY`), `abuse:index` blocklist check, per-number burst guard
(bucket `floor(now / (BURST_WINDOW_SECONDS*1000))`, block above
`MAX_MESSAGES_PER_NUMBER`), global flood guard (`incrementGlobalUnknown`
then defensive-mode check) and content sanity (length or URL; 5 strikes
block).  Returns the mutated store and the `allow` flag. -/
def runUnknownAbuseGuardsP3 (s : Store) (phone body : String) (now : Nat) :
    Store × Bool :=
  if US_ONLY && !(isUSFormat phone) then (s, false)
  else if isBlocked s phone then (s, false)
  else
    let afterBurst : Store × Bool :=
      if MAX_MESSAGES_PER_NUMBER > 0 then
        let bucket := now / (BURST_WINDOW_SECONDS * 1000)
        let burstCount := s.burst phone bucket + 1
        let sb := { s with
          burst := fun f b => if f = phone ∧ b = bucket then burstCount else s.burst f b }
        if burstCount > MAX_MESSAGES_PER_NUMBER then (permanentlyBlock sb phone, false)
        else (sb, true)
      else (s, true)
    if !afterBurst.2 then (afterBurst.1, false)
    else guardFloodContent afterBurst.1 phone body

/-! ## Throttle, hash-based draft (`lib/throttle.js` lines 6-28) -/

/-- `recordUnknownReply({key, now})` of `lib/throttle.js` lines 22-28:
`hincrby rl:num:{from} count 1` and `hset rl:num:{from} last now`
(the 3-day `expire` refresh is not modelled). -/
def recordUnknownReplyHash (s : Store) (frm : String) (now : Nat) : Store :=
  { s with
    hashCount := fun f => if f = frm then s.hashCount f + 1 else s.hashCount f,
    hashLast := fun f => if f = frm then now else s.hashLast f }

/-! ## Decision pipeline, later draft (`api/sms.js` lines 214-393) -/

/-- The part of the `api/sms.js` lines 214-393 handler after the keyword
gate: whitelist check, the `unnamed/part_003` abuse guard, an inline global
daily cap (guarded by the truthiness of `GLOBAL_MAX_PER_DAY`), the
hash-based cooldown and per-number cap, and finally the fallback reply with
`recordUnknownReply` plus the global daily counter increment. -/
def handlerTailV2 (s2 : Store) (frm body today : String) (now : Nat) (tw : List String) :
    Store × Resp × Outcome :=
  if s2.whitelist.contains frm then
    (s2, okResp (tw ++ [passwordMessageV2]), .replySecret)
  else
    let g := runUnknownAbuseGuardsP3 s2 frm body now
    if !g.2 then (g.1, noContent tw, .silent)
    else
      let s3 := g.1
      if GLOBAL_MAX_PER_DAY ≠ 0 ∧ GLOBAL_MAX_PER_DAY ≤ s3.rlGlobal today then
        (s3, noContent tw, .silent)
      else if s3.hashLast frm ≠ 0 ∧ now - s3.hashLast frm < MIN_REPLY_COOLDOWN_MIN * 60 * 1000 then
        (s3, noContent tw, .silent)
      else if MAX_PER_NUMBER_PER_DAY ≠ 0 ∧ MAX_PER_NUMBER_PER_DAY ≤ s3.hashCount frm then
        (s3, noContent tw, .silent)
      else
        let s4 := recordUnknownReplyHash s3 frm now
        let s5 := { s4 with
          rlGlobal := fun d => if d = today then s4.rlGlobal d + 1 else s4.rlGlobal d }
        (s5, okResp (tw ++ [fallbackMessage]), .replyFallback)

/-- The handler of `api/sms.js` lines 214-393 after form parsing: same
compliance / opt-out / keyword-gate prefix as `handlerV1` (with the
config-draft help text), then `handlerTailV2`. -/
def handlerV2 (kw : String) (s : Store) (frm body today : String) (now : Nat) :
    Store × Resp × Outcome :=
  let upper := upperJS body
  let tw : List String := []
  if someIncludes OPT_OUTS upper then
    (recordOptOut s frm, noContent tw, .silent)
  else if someIncludes HELP_WORDS upper then
    (s, okResp (tw ++ [HELP_MESSAGE]), .replyHelp)
  else
    let s1 := if someIncludes OPT_INS upper then clearOptOut s frm else s
    let stillOptedOut := isOptedOut s1 frm
    if stillOptedOut && !(ALLOW_PASSWORD_REJOIN && !(kw == "") && includes upper kw) then
      (s1, noContent tw, .silent)
    else
      let s2 := if stillOptedOut then clearOptOut s1 frm else s1
      if !(kw == "") && !(includes upper kw) then (s2, noContent tw, .silent)
      else handlerTailV2 s2 frm body today now tw

/-! ## Concrete stores used by the closed theorems -/

/-- A store with every key absent. -/
def emptyStore : Store :=
  { whitelist := []
    optout := fun _ => false
    optedoutIndex := []
    blockKey := fun _ => false
    abuseIndex := []
    unkBucket := fun _ => 0
    defensiveMode := false
    defensiveTTL := none
    badCount := fun _ _ => 0
    burst := fun _ _ => 0
    unknownWindow := 0
    unknownWindowTTL := none
    hashCount := fun _ => 0
    hashLast := fun _ => 0
    hashSuspicious := fun _ => 0
    rlGlobal := fun _ => 0
    rlNumCount := fun _ _ => 0
    rlNumLast := fun _ _ => 0 }

/-- An otherwise-empty store whose whitelist holds one guest. -/
def wlStore : Store :=
  { emptyStore with whitelist := ["+15551234567"] }

/-- An otherwise-empty store with one permanently blocked sender. -/
def blockedStore : Store :=
  { emptyStore with abuseIndex := ["+15550001111"], blockKey := fun p => p == "+15550001111" }

/-- An otherwise-empty store whose global daily counter is at the cap. -/
def cappedStore : Store :=
  { emptyStore with rlGlobal := fun _ => 2000 }

/-- An otherwise-empty store in which one sender has already sent
`MAX_MESSAGES_PER_NUMBER` messages in the current burst bucket. -/
def burstStore : Store :=
  { emptyStore with
      burst := fun f b => if f = "+15550003333" ∧ b = 0 then 5 else 0 }

/-! ## Shared lemmas -/

/-- A prefix occurrence is in particular a substring occurrence. -/
theorem hasSubAux_of_isPrefixL (n l : List Char) (h : isPrefixL n l = true) :
    hasSubAux n l = true := by
  cases l with
  | nil => simpa [hasSubAux] using h
  | cons c r => simp [hasSubAux, h]

/-- If `a ++ b` is a prefix of `l` then `b` occurs in `l`. -/
theorem hasSubAux_of_isPrefixL_append (b : List Char) :
    ∀ (a l : List Char), isPrefixL (a ++ b) l = true → hasSubAux b l = true := by
  intro a
  induction a with
  | nil =>
    intro l h
    exact hasSubAux_of_isPrefixL b l (by simpa using h)
  | cons x xs ih =>
    intro l h
    cases l with
    | nil => simp [isPrefixL] at h
    | cons y ys =>
      simp only [List.cons_append, isPrefixL, Bool.and_eq_true] at h
      have hsub := ih ys h.2
      simp [hasSubAux, hsub]

/-- Substring containment is monotone under dropping a prefix of the needle:
if `a ++ b` occurs in `l` then `b` occurs in `l`. -/
theorem hasSubAux_mono (a b : List Char) :
    ∀ (l : List Char), hasSubAux (a ++ b) l = true → hasSubAux b l = true := by
  intro l
  induction l with
  | nil =>
    intro h
    simp only [hasSubAux] at h ⊢
    cases a with
    | nil => simpa using h
    | cons x xs => simp [isPrefixL] at h
  | cons c r ih =>
    intro h
    simp only [hasSubAux, Bool.or_eq_true] at h
    rcases h with h | h
    · exact hasSubAux_of_isPrefixL_append b a _ h
    · have hr := ih h
      simp [hasSubAux, hr]

/-- Any string containing `UNSTOP` also contains `STOP`. -/
theorem includes_STOP_of_UNSTOP (hay : String) (h : includes hay "UNSTOP" = true) :
    includes hay "STOP" = true := by
  have hd : "UNSTOP".data = "UN".data ++ "STOP".data := by decide
  unfold includes at h ⊢
  rw [hd] at h
  exact hasSubAux_mono _ _ _ h

/-- `clearOptOut` leaves the whitelist unchanged. -/
theorem clearOptOut_whitelist (s : Store) (p : String) :
    (clearOptOut s p).whitelist = s.whitelist := rfl

/-- `recordOptOut` leaves the whitelist unchanged. -/
theorem recordOptOut_whitelist (s : Store) (p : String) :
    (recordOptOut s p).whitelist = s.whitelist := rfl

/-- Projecting the whitelist commutes with a store-level `if`. -/
theorem whitelist_ite (P : Prop) [Decidable P] (a b : Store) :
    (if P then a else b).whitelist = if P then a.whitelist else b.whitelist := by
  split_ifs <;> rfl

/-- The opt-out bookkeeping before the keyword gate never touches the
whitelist. -/
theorem optClear_whitelist (s : Store) (frm : String) (P Q : Prop)
    [Decidable P] [Decidable Q] :
    (if Q then clearOptOut (if P then clearOptOut s frm else s) frm
     else if P then clearOptOut s frm else s).whitelist = s.whitelist := by
  split_ifs <;> rfl

/-- The first-draft abuse guard rejects the empty sender without touching
the store (origin validation fails). -/
theorem guardV1_empty (s : Store) (body today : String) (now : Nat) :
    runUnknownAbuseGuards s "" body today now = (s, false) := rfl

/-! ## Claim theorems -/

/-- Claim C5: `incrementGlobalUnknown` increments the single rolling-window
unknown counter, sets that counter's expiry (5 minutes) only on the first
increment in the window, and sets the Defensive-Mode Flag with a 1-hour TTL
exactly when the counter's value exceeds the threshold of 20. -/
theorem flood_guard_c5 (s : Store) :
    (incrementGlobalUnknown s).2 = s.unknownWindow + 1 ∧
    (incrementGlobalUnknown s).1.unknownWindow = s.unknownWindow + 1 ∧
    (incrementGlobalUnknown s).1.unknownWindowTTL =
      (if s.unknownWindow + 1 = 1 then some (UNKNOWN_WINDOW_MINUTES * 60)
       else s.unknownWindowTTL) ∧
    (incrementGlobalUnknown s).1.defensiveMode =
      (if UNKNOWN_MESSAGE_THRESHOLD < s.unknownWindow + 1 then true else s.defensiveMode) ∧
    (incrementGlobalUnknown s).1.defensiveTTL =
      (if UNKNOWN_MESSAGE_THRESHOLD < s.unknownWindow + 1 then some DEFENSIVE_MODE_DURATION_SEC
       else s.defensiveTTL) := by
  unfold incrementGlobalUnknown
  dsimp only
  split <;> rename_i hgt <;>
    simp [Nat.lt_iff_add_one_le, gt_iff_lt] at hgt ⊢

/-- Claim C9: a message containing a HELP keyword and no opt-out keyword is
answered with the help reply before any other stage runs: the store is
returned untouched and the outcome is `replyHelp`, for every prior store
state (in particular for opted-out, blocked, invalid-format and rate-limited
senders). -/
theorem help_first_c9 (kw : String) (s : Store) (frm body today : String) (now : Nat)
    (hstop : someIncludes OPT_OUTS (upperJS body) = false)
    (hhelp : someIncludes HELP_WORDS (upperJS body) = true) :
    handlerV1 kw s frm body today now = (s, okResp [helpMessage], Outcome.replyHelp) := by
  unfold handlerV1
  simp [hstop, hhelp]

/-- Witness for C9: a blocked, opted-out, rate-limited sender texting `HELP`
still receives the help reply and nothing is written. -/
theorem help_first_c9_witness :
    handlerV1 "" blockedStore "+15550001111" "HELP" "2025-01-01" 0 =
      (blockedStore, okResp [helpMessage], Outcome.replyHelp) :=
  help_first_c9 "" blockedStore "+15550001111" "HELP" "2025-01-01" 0
    (by decide) (by decide)

/-- Claim C8: any message whose uppercased body contains `UNSTOP` also
matches the opt-out substring check (`UNSTOP` contains `STOP`), so the
handler records an opt-out and stays silent; texting `UNSTOP` can never opt
a sender back in even though it is a listed opt-in keyword. -/
theorem unstop_optout_c8 (kw : String) (s : Store) (frm body today : String) (now : Nat)
    (h : includes (upperJS body) "UNSTOP" = true) :
    handlerV1 kw s frm body today now = (recordOptOut s frm, noContent [], Outcome.silent) ∧
    (recordOptOut s frm).optout frm = true ∧
    OPT_INS.contains "UNSTOP" = true ∧
    OPT_OUTS.contains "STOP" = true := by
  have hs := includes_STOP_of_UNSTOP _ h
  have hstop : someIncludes OPT_OUTS (upperJS body) = true := by
    simp [someIncludes, OPT_OUTS, hs]
  refine ⟨?_, ?_, by decide, by decide⟩
  · unfold handlerV1
    simp [hstop]
  · simp [recordOptOut]

/-- Witness for C8: texting exactly `UNSTOP` records an opt-out and is
answered with silence. -/
theorem unstop_optout_c8_witness :
    handlerV1 "" emptyStore "+15550002222" "UNSTOP" "2025-01-01" 0 =
      (recordOptOut emptyStore "+15550002222", noContent [], Outcome.silent) ∧
    (recordOptOut emptyStore "+15550002222").optout "+15550002222" = true :=
  ⟨(unstop_optout_c8 "" emptyStore "+15550002222" "UNSTOP" "2025-01-01" 0 (by decide)).1,
   (unstop_optout_c8 "" emptyStore "+15550002222" "UNSTOP" "2025-01-01" 0 (by decide)).2.1⟩

/-- Claim C1 (amended): a whitelisted sender whose message contains no
opt-out keyword and no help keyword and passes the keyword gate always
receives `replySecret`, regardless of every counter in the store, unless an
un-cleared opt-out's rejoin condition fails; the abuse guard and the
throttle counters never affect a whitelisted sender. -/
theorem whitelist_secret_c1 (kw : String) (s : Store) (frm body today : String) (now : Nat)
    (hstop : someIncludes OPT_OUTS (upperJS body) = false)
    (hhelp : someIncludes HELP_WORDS (upperJS body) = false)
    (hwl : s.whitelist.contains frm = true)
    (hgate : kw = "" ∨ includes (upperJS body) kw = true)
    (hopt : isOptedOut (if someIncludes OPT_INS (upperJS body) then clearOptOut s frm else s)
        frm = true → (kw ≠ "" ∧ includes (upperJS body) kw = true)) :
    (handlerV1 kw s frm body today now).2 = (okResp [passwordMessage], Outcome.replySecret) := by
  have hwl' : frm ∈ s.whitelist := by simpa using hwl
  unfold handlerV1 handlerTail
  dsimp only
  by_cases hoo : isOptedOut
      (if someIncludes OPT_INS (upperJS body) = true then clearOptOut s frm else s) frm = true
  · obtain ⟨hkw, hinc⟩ := hopt hoo
    have hkwb : (kw == "") = false := beq_eq_false_iff_ne.mpr hkw
    simp [hstop, hhelp, hoo, hinc, hkwb, ALLOW_PASSWORD_REJOIN,
          whitelist_ite, clearOptOut_whitelist, hwl', hwl]
  · have hoo' : isOptedOut
        (if someIncludes OPT_INS (upperJS body) = true then clearOptOut s frm else s) frm = false := by
      simpa using hoo
    rcases hgate with rfl | hg
    · simp [hstop, hhelp, hoo', whitelist_ite, clearOptOut_whitelist, hwl', hwl]
    · simp [hstop, hhelp, hoo', hg, whitelist_ite, clearOptOut_whitelist, hwl', hwl]

/-- Counterexample for C1 as stated: the keyword gate runs before the
whitelist check, so with a configured keyword a whitelisted, never-opted-out
sender texting a keyword-free message gets `silent`, not `replySecret`;
opt-out and help keywords likewise pre-empt the whitelist reply. -/
theorem whitelist_secret_c1_counterexample :
    wlStore.whitelist.contains "+15551234567" = true ∧
    wlStore.optout "+15551234567" = false ∧
    (handlerV1 "PASSWORD" wlStore "+15551234567" "HI" "2025-01-01" 0).2.2 = Outcome.silent ∧
    (handlerV1 "" wlStore "+15551234567" "STOP" "2025-01-01" 0).2.2 = Outcome.silent ∧
    (handlerV1 "" wlStore "+15551234567" "HELP" "2025-01-01" 0).2.2 = Outcome.replyHelp := by
  decide

/-- Witness for C1 (amended): a whitelisted sender with the gate disabled
and arbitrary prior counters receives the secret. -/
theorem whitelist_secret_c1_witness :
    (handlerV1 "" wlStore "+15551234567" "hello" "2025-01-01" 0).2 =
      (okResp [passwordMessage], Outcome.replySecret) :=
  whitelist_secret_c1 "" wlStore "+15551234567" "hello" "2025-01-01" 0
    (by decide) (by decide) (by decide) (Or.inl rfl) (by decide)

/-- Claim C3 (amended): a sender that really fails the origin-validation
regex `/^\+1\d{10}$/` and reaches the abuse guard is rejected silently with
the store fully unchanged — format rejection mutates nothing and is never
escalated.  (The sender named by the claim, `+19005551234`, does not fail
the regex; see the counterexample.) -/
theorem invalid_origin_c3 (kw : String) (s : Store) (frm body today : String) (now : Nat)
    (hus : isUSFormat frm = false)
    (hstop : someIncludes OPT_OUTS (upperJS body) = false)
    (hhelp : someIncludes HELP_WORDS (upperJS body) = false)
    (hoptin : someIncludes OPT_INS (upperJS body) = false)
    (hopt : s.optout frm = false)
    (hgate : kw = "" ∨ includes (upperJS body) kw = true)
    (hwl : s.whitelist.contains frm = false) :
    handlerV1 kw s frm body today now = (s, noContent [], Outcome.silent) := by
  have hguard : runUnknownAbuseGuards s frm body today now = (s, false) := by
    unfold runUnknownAbuseGuards
    simp [hus]
  have hwl' : frm ∉ s.whitelist := by simpa using hwl
  unfold handlerV1 handlerTail
  dsimp only
  rcases hgate with rfl | hg
  · simp [hstop, hhelp, hoptin, isOptedOut, hopt, hguard, hwl']
  · simp [hstop, hhelp, hoptin, isOptedOut, hopt, hguard, hwl', hg]

/-- Counterexample for C3 as stated: `+19005551234` passes the US-format
regex, so it is not rejected by origin validation; on an empty store the
pipeline answers it with the fallback reply and increments both the global
and the per-number counters. -/
theorem invalid_origin_c3_counterexample :
    isUSFormat "+19005551234" = true ∧
    (handlerV1 "" emptyStore "+19005551234" "hi" "2025-01-01" 0).2.2 = Outcome.replyFallback ∧
    (handlerV1 "" emptyStore "+19005551234" "hi" "2025-01-01" 0).1.rlGlobal "2025-01-01" = 1 ∧
    (handlerV1 "" emptyStore "+19005551234" "hi" "2025-01-01" 0).1.rlNumCount
      "+19005551234" "2025-01-01" = 1 := by
  decide

/-- Witness for C3 (amended): a UK-format sender is dropped silently with
nothing written. -/
theorem invalid_origin_c3_witness :
    handlerV1 "" emptyStore "+441234567890" "hi" "2025-01-01" 0 =
      (emptyStore, noContent [], Outcome.silent) :=
  invalid_origin_c3 "" emptyStore "+441234567890" "hi" "2025-01-01" 0
    (by decide) (by decide) (by decide) (by decide) (by decide) (Or.inl rfl) (by decide)

/-- Claim C7 (amended): the pipeline, a total function here, handles an
empty sender without fabricating a default: the empty sender fails origin
validation, and every message from it that is not a help request ends
`silent` when the empty string is not whitelisted.  (A help-keyword message
is answered with the help reply; see the counterexample.) -/
theorem empty_sender_c7 (kw : String) (s : Store) (body today : String) (now : Nat)
    (hwl : s.whitelist.contains "" = false)
    (hhelp : someIncludes HELP_WORDS (upperJS body) = false) :
    isUSFormat "" = false ∧
    (handlerV1 kw s "" body today now).2.2 = Outcome.silent := by
  have hwl' : "" ∉ s.whitelist := by simpa using hwl
  refine ⟨rfl, ?_⟩
  unfold handlerV1 handlerTail
  dsimp only
  simp only [guardV1_empty]
  split_ifs <;> first
    | rfl
    | (exfalso; simp_all [clearOptOut, recordOptOut])

/-- Counterexample for C7 as stated: an empty sender texting `HELP` gets the
help reply, not `silent`. -/
theorem empty_sender_c7_counterexample :
    emptyStore.whitelist.contains "" = false ∧
    (handlerV1 "" emptyStore "" "HELP" "2025-01-01" 0).2.2 = Outcome.replyHelp := by
  decide

/-- Witness for C7 (amended): an ordinary message with no sender ends
silent. -/
theorem empty_sender_c7_witness :
    isUSFormat "" = false ∧
    (handlerV1 "" emptyStore "" "hi there" "2025-01-01" 0).2.2 = Outcome.silent :=
  empty_sender_c7 "" emptyStore "hi there" "2025-01-01" 0 (by decide) (by decide)

/-- The first-draft abuse guard never touches the throttle-ledger records
(`rl:global:*`, `rl:num:*:count`, `rl:num:*:last`). -/
theorem guardV1_rl (s : Store) (frm body today : String) (now : Nat) :
    (runUnknownAbuseGuards s frm body today now).1.rlGlobal = s.rlGlobal ∧
    (runUnknownAbuseGuards s frm body today now).1.rlNumCount = s.rlNumCount ∧
    (runUnknownAbuseGuards s frm body today now).1.rlNumLast = s.rlNumLast := by
  unfold runUnknownAbuseGuards
  dsimp only
  by_cases h1 : (!isUSFormat frm) = true
  · rw [if_pos h1]; exact ⟨rfl, rfl, rfl⟩
  · rw [if_neg h1]
    by_cases h2 : s.blockKey frm = true
    · rw [if_pos h2]; exact ⟨rfl, rfl, rfl⟩
    · rw [if_neg h2]
      by_cases h3 : s.unkBucket (now / (10 * 60 * 1000)) + 1 > 100
      · rw [if_pos h3]
        try dsimp only
        rw [if_pos (by rfl)]
        exact ⟨rfl, rfl, rfl⟩
      · rw [if_neg h3]
        try dsimp only
        by_cases h4 : s.defensiveMode = true
        · rw [if_pos h4]; exact ⟨rfl, rfl, rfl⟩
        · rw [if_neg h4]
          by_cases h5 : (decide (body.length > 160) || hasURL body) = true
          · rw [if_pos h5]
            try dsimp only
            by_cases h6 : s.badCount frm today + 1 ≥ 5
            · rw [if_pos h6]; exact ⟨rfl, rfl, rfl⟩
            · rw [if_neg h6]; exact ⟨rfl, rfl, rfl⟩
          · rw [if_neg h5]; exact ⟨rfl, rfl, rfl⟩

/-- On every silent path of the post-gate tail the response is the empty
204. -/
theorem handlerTail_silent (s2 : Store) (frm body today : String) (now : Nat)
    (h : (handlerTail s2 frm body today now []).2.2 = Outcome.silent) :
    (handlerTail s2 frm body today now []).2.1 = noContent [] := by
  revert h
  unfold handlerTail unknownThrottle getUnknownThrottleState
  dsimp only
  split_ifs <;> intro h <;> first | rfl | simp at h

/-- Claim C4: whenever the pipeline's outcome is `silent`, the HTTP response
is the empty 204 (`res.status(204).end()`): nothing is transmitted and no
message was ever attached to the `twiml` object on that path — zero billable
outbound messages. -/
theorem silent_no_outbound_c4 (kw : String) (s : Store) (frm body today : String) (now : Nat)
    (h : (handlerV1 kw s frm body today now).2.2 = Outcome.silent) :
    (handlerV1 kw s frm body today now).2.1 = noContent [] ∧
    (handlerV1 kw s frm body today now).2.1.status = 204 ∧
    (handlerV1 kw s frm body today now).2.1.sent = [] ∧
    (handlerV1 kw s frm body today now).2.1.twiml = [] := by
  have key : (handlerV1 kw s frm body today now).2.1 = noContent [] := by
    revert h
    unfold handlerV1
    dsimp only
    split_ifs <;> intro h <;>
      first
        | rfl
        | simp at h
        | exact handlerTail_silent _ _ _ _ _ h
  exact ⟨key, by rw [key]; rfl, by rw [key]; rfl, by rw [key]; rfl⟩

/-- Witness for C4: a silent run (invalid-format sender) transmits nothing. -/
theorem silent_no_outbound_c4_witness :
    (handlerV1 "" emptyStore "+441234567890" "hi" "2025-01-01" 0).2.1 = noContent [] ∧
    (handlerV1 "" emptyStore "+441234567890" "hi" "2025-01-01" 0).2.1.status = 204 ∧
    (handlerV1 "" emptyStore "+441234567890" "hi" "2025-01-01" 0).2.1.sent = [] ∧
    (handlerV1 "" emptyStore "+441234567890" "hi" "2025-01-01" 0).2.1.twiml = [] :=
  silent_no_outbound_c4 "" emptyStore "+441234567890" "hi" "2025-01-01" 0 (by decide)

/-- Claim C6: in the throttle stage, a global daily count at or above the
cap rejects the message with the store fully unchanged; when the global cap,
the cooldown and the per-sender cap all pass, the fallback reply is sent and
exactly the three throttle records are written: global daily counter `+1`,
sender reply counter `+1`, sender last-reply timestamp set to `now`, with
every other key and field untouched. -/
theorem throttle_stage_c6 (s : Store) (frm today : String) (now : Nat) (tw : List String) :
    (GLOBAL_MAX_PER_DAY ≤ s.rlGlobal today →
      unknownThrottle s frm today now tw = (s, noContent tw, Outcome.silent)) ∧
    (s.rlGlobal today < GLOBAL_MAX_PER_DAY →
      (s.rlNumLast frm today = 0 ∨
        MIN_REPLY_COOLDOWN_MIN * 60 * 1000 ≤ now - s.rlNumLast frm today) →
      s.rlNumCount frm today < MAX_PER_NUMBER_PER_DAY →
      (unknownThrottle s frm today now tw =
        (recordUnknownReply s frm today now, okResp (tw ++ [fallbackMessage]),
          Outcome.replyFallback) ∧
       (recordUnknownReply s frm today now).rlGlobal today = s.rlGlobal today + 1 ∧
       (recordUnknownReply s frm today now).rlNumCount frm today = s.rlNumCount frm today + 1 ∧
       (recordUnknownReply s frm today now).rlNumLast frm today = now ∧
       (∀ d, d ≠ today → (recordUnknownReply s frm today now).rlGlobal d = s.rlGlobal d) ∧
       (∀ f d, ¬(f = frm ∧ d = today) →
         (recordUnknownReply s frm today now).rlNumCount f d = s.rlNumCount f d ∧
         (recordUnknownReply s frm today now).rlNumLast f d = s.rlNumLast f d) ∧
       (recordUnknownReply s frm today now).whitelist = s.whitelist ∧
       (recordUnknownReply s frm today now).optout = s.optout ∧
       (recordUnknownReply s frm today now).optedoutIndex = s.optedoutIndex ∧
       (recordUnknownReply s frm today now).blockKey = s.blockKey ∧
       (recordUnknownReply s frm today now).abuseIndex = s.abuseIndex ∧
       (recordUnknownReply s frm today now).unkBucket = s.unkBucket ∧
       (recordUnknownReply s frm today now).defensiveMode = s.defensiveMode ∧
       (recordUnknownReply s frm today now).badCount = s.badCount ∧
       (recordUnknownReply s frm today now).burst = s.burst ∧
       (recordUnknownReply s frm today now).unknownWindow = s.unknownWindow ∧
       (recordUnknownReply s frm today now).hashCount = s.hashCount ∧
       (recordUnknownReply s frm today now).hashLast = s.hashLast ∧
       (recordUnknownReply s frm today now).hashSuspicious = s.hashSuspicious)) := by
  constructor
  · intro h
    unfold unknownThrottle getUnknownThrottleState
    dsimp only
    rw [if_pos h]
  · intro h1 h2 h3
    have hcool : ¬(s.rlNumLast frm today ≠ 0 ∧
        now - s.rlNumLast frm today < MIN_REPLY_COOLDOWN_MIN * 60 * 1000) := by
      rintro ⟨hne, hlt⟩
      rcases h2 with h0 | hge
      · exact hne h0
      · omega
    refine ⟨?_, ?_, ?_, ?_, ?_, ?_, rfl, rfl, rfl, rfl, rfl, rfl, rfl, rfl, rfl, rfl, rfl, rfl, rfl⟩
    · unfold unknownThrottle getUnknownThrottleState
      dsimp only
      rw [if_neg (by omega), if_neg hcool, if_neg (by omega)]
    · simp [recordUnknownReply]
    · simp [recordUnknownReply]
    · simp [recordUnknownReply]
    · intro d hd
      simp [recordUnknownReply, hd]
    · intro f d hfd
      simp [recordUnknownReply, hfd]

/-- Witness for C6: at the cap the message is rejected and nothing changes;
on a fresh store the fallback is sent and the three records are written. -/
theorem throttle_stage_c6_witness :
    (unknownThrottle cappedStore "+15550004444" "2025-01-01" 0 [] =
      (cappedStore, noContent [], Outcome.silent)) ∧
    (unknownThrottle emptyStore "+15550004444" "2025-01-01" 0 [] =
      (recordUnknownReply emptyStore "+15550004444" "2025-01-01" 0,
        okResp [fallbackMessage], Outcome.replyFallback)) :=
  ⟨(throttle_stage_c6 cappedStore "+15550004444" "2025-01-01" 0 []).1 (by decide),
   ((throttle_stage_c6 emptyStore "+15550004444" "2025-01-01" 0 []).2
      (by decide) (Or.inl rfl) (by decide)).1⟩

/-- Claim C10: the throttle-ledger records (per-sender reply count,
per-sender last-reply timestamp and global daily counter) are written only
on the fallback-reply path; on every other outcome they are unchanged, and
on the fallback path they receive exactly the increment/timestamp writes. -/
theorem throttle_frame_c10 (kw : String) (s : Store) (frm body today : String) (now : Nat) :
    ((handlerV1 kw s frm body today now).2.2 ≠ Outcome.replyFallback →
      (handlerV1 kw s frm body today now).1.rlGlobal = s.rlGlobal ∧
      (handlerV1 kw s frm body today now).1.rlNumCount = s.rlNumCount ∧
      (handlerV1 kw s frm body today now).1.rlNumLast = s.rlNumLast) ∧
    ((handlerV1 kw s frm body today now).2.2 = Outcome.replyFallback →
      (handlerV1 kw s frm body today now).1.rlGlobal today = s.rlGlobal today + 1 ∧
      (handlerV1 kw s frm body today now).1.rlNumCount frm today = s.rlNumCount frm today + 1 ∧
      (handlerV1 kw s frm body today now).1.rlNumLast frm today = now) := by
  have tail : ∀ s2 : Store,
      (((handlerTail s2 frm body today now []).2.2 ≠ Outcome.replyFallback →
        (handlerTail s2 frm body today now []).1.rlGlobal = s2.rlGlobal ∧
        (handlerTail s2 frm body today now []).1.rlNumCount = s2.rlNumCount ∧
        (handlerTail s2 frm body today now []).1.rlNumLast = s2.rlNumLast) ∧
       ((handlerTail s2 frm body today now []).2.2 = Outcome.replyFallback →
        (handlerTail s2 frm body today now []).1.rlGlobal today = s2.rlGlobal today + 1 ∧
        (handlerTail s2 frm body today now []).1.rlNumCount frm today =
          s2.rlNumCount frm today + 1 ∧
        (handlerTail s2 frm body today now []).1.rlNumLast frm today = now)) := by
    intro s2
    unfold handlerTail unknownThrottle getUnknownThrottleState
    dsimp only
    split_ifs <;>
      refine ⟨fun h => ?_, fun h => ?_⟩ <;>
      first
        | exact absurd rfl h
        | exact absurd h (by decide)
        | exact ⟨rfl, rfl, rfl⟩
        | exact ⟨(guardV1_rl _ _ _ _ _).1, (guardV1_rl _ _ _ _ _).2.1,
                 (guardV1_rl _ _ _ _ _).2.2⟩
        | simp [recordUnknownReply, guardV1_rl]
  unfold handlerV1
  dsimp only
  split_ifs <;>
    first
      | exact ⟨fun _ => ⟨rfl, rfl, rfl⟩, fun h => absurd h (by decide)⟩
      | exact tail _

/-- Witness for C10: on the fallback path the three records are written as
specified (part 2 applied at an unknown, unthrottled sender); on a silent
path they are unchanged (part 1 applied at an invalid-format sender). -/
theorem throttle_frame_c10_witness :
    ((handlerV1 "" emptyStore "+15550004444" "hi" "2025-01-01" 0).1.rlGlobal "2025-01-01" =
      emptyStore.rlGlobal "2025-01-01" + 1) ∧
    ((handlerV1 "" emptyStore "+441234567890" "hi" "2025-01-01" 0).1.rlGlobal =
      emptyStore.rlGlobal) :=
  ⟨((throttle_frame_c10 "" emptyStore "+15550004444" "hi" "2025-01-01" 0).2 (by decide)).1,
   ((throttle_frame_c10 "" emptyStore "+441234567890" "hi" "2025-01-01" 0).1 (by decide)).1⟩

/-- `incrementGlobalUnknown` never touches the `abuse:index` set. -/
theorem incrementGlobalUnknown_abuseIndex (s : Store) :
    (incrementGlobalUnknown s).1.abuseIndex = s.abuseIndex := by
  unfold incrementGlobalUnknown
  dsimp only
  by_cases h : s.unknownWindow + 1 > UNKNOWN_MESSAGE_THRESHOLD
  · rw [if_pos h]
  · rw [if_neg h]

/-- `incrSuspicious` never touches the `abuse:index` set. -/
theorem incrSuspicious_abuseIndex (s : Store) (p : String) :
    (incrSuspicious s p).1.abuseIndex = s.abuseIndex := rfl

/-- `permanentlyBlock` puts the blocked number into `abuse:index`. -/
theorem permanentlyBlock_contains_self (s : Store) (p : String) :
    (permanentlyBlock s p).abuseIndex.contains p = true := by
  simp [permanentlyBlock]

/-- `permanentlyBlock` keeps every existing `abuse:index` member. -/
theorem permanentlyBlock_contains_mono (s : Store) (p x : String)
    (hx : s.abuseIndex.contains x = true) :
    (permanentlyBlock s p).abuseIndex.contains x = true := by
  simp [permanentlyBlock] at hx ⊢
  exact Or.inr hx

/-- The flood/content stages of the later-draft guard keep every existing
`abuse:index` member. -/
theorem guardFloodContent_abuse_mono (t : Store) (phone body x : String)
    (hx : t.abuseIndex.contains x = true) :
    (guardFloodContent t phone body).1.abuseIndex.contains x = true := by
  have hg : (incrementGlobalUnknown t).1.abuseIndex.contains x = true := by
    rw [incrementGlobalUnknown_abuseIndex]; exact hx
  unfold guardFloodContent
  dsimp only
  by_cases h4 : (incrementGlobalUnknown t).1.defensiveMode = true
  · rw [if_pos h4]; exact hg
  · rw [if_neg h4]
    by_cases h5 : (decide (body.length > MAX_MESSAGE_LENGTH) || hasURL body) = true
    · rw [if_pos h5]
      by_cases h6 : (incrSuspicious (incrementGlobalUnknown t).1 phone).2 ≥ 5
      · rw [if_pos h6]
        exact permanentlyBlock_contains_mono _ _ _
          (by rw [incrSuspicious_abuseIndex]; exact hg)
      · rw [if_neg h6]
        show (incrSuspicious _ phone).1.abuseIndex.contains x = true
        rw [incrSuspicious_abuseIndex]; exact hg
    · rw [if_neg h5]; exact hg

/-- A sender already on the `abuse:index` blocklist is always rejected by
the later-draft guard, with the store unchanged (the blocklist check is
stage 2, before any counter write). -/
theorem guardP3_blocked (s : Store) (phone body : String) (now : Nat)
    (hb : isBlocked s phone = true) :
    runUnknownAbuseGuardsP3 s phone body now = (s, false) := by
  unfold runUnknownAbuseGuardsP3
  dsimp only
  by_cases h1 : (US_ONLY && !isUSFormat phone) = true
  · rw [if_pos h1]
  · rw [if_neg h1, if_pos hb]

/-- A valid-format, unblocked sender whose current burst-bucket counter is
already at `MAX_MESSAGES_PER_NUMBER` is rejected by the later-draft guard
and permanently blocked (`abuse:index`). -/
theorem guardP3_burst (s : Store) (phone body : String) (now : Nat)
    (hus : isUSFormat phone = true)
    (hnb : isBlocked s phone = false)
    (hburst : MAX_MESSAGES_PER_NUMBER ≤ s.burst phone (now / (BURST_WINDOW_SECONDS * 1000))) :
    (runUnknownAbuseGuardsP3 s phone body now).2 = false ∧
    (runUnknownAbuseGuardsP3 s phone body now).1.abuseIndex.contains phone = true := by
  have hM : MAX_MESSAGES_PER_NUMBER = 5 := rfl
  unfold runUnknownAbuseGuardsP3
  dsimp only
  rw [if_neg (by simp [hus, US_ONLY]), if_neg (by simp [hnb]),
      if_pos (by decide : MAX_MESSAGES_PER_NUMBER > 0),
      if_pos (show s.burst phone (now / (BURST_WINDOW_SECONDS * 1000)) + 1 >
        MAX_MESSAGES_PER_NUMBER by rw [hM] at hburst ⊢; omega),
      if_pos (by rfl)]
  exact ⟨rfl, permanentlyBlock_contains_self _ _⟩

/-- The later-draft guard keeps every existing `abuse:index` member: a
permanent block is never cleared inside the pipeline. -/
theorem guardP3_abuse_mono (s : Store) (phone body : String) (now : Nat) (x : String)
    (hx : s.abuseIndex.contains x = true) :
    (runUnknownAbuseGuardsP3 s phone body now).1.abuseIndex.contains x = true := by
  unfold runUnknownAbuseGuardsP3
  dsimp only
  by_cases h1 : (US_ONLY && !isUSFormat phone) = true
  · rw [if_pos h1]; exact hx
  · rw [if_neg h1]
    by_cases h2 : isBlocked s phone = true
    · rw [if_pos h2]; exact hx
    · rw [if_neg h2, if_pos (by decide : MAX_MESSAGES_PER_NUMBER > 0)]
      by_cases h3 : s.burst phone (now / (BURST_WINDOW_SECONDS * 1000)) + 1 >
          MAX_MESSAGES_PER_NUMBER
      · rw [if_pos h3, if_pos (by rfl)]
        exact permanentlyBlock_contains_mono _ _ _ hx
      · rw [if_neg h3, if_neg (by simp)]
        exact guardFloodContent_abuse_mono _ _ _ _ hx

/-- A non-whitelisted, already-blocked sender gets the empty 204 from the
later-draft tail with the store unchanged. -/
theorem handlerTailV2_blocked (s2 : Store) (frm body today : String) (now : Nat)
    (tw : List String)
    (hwl : s2.whitelist.contains frm = false)
    (hb : s2.abuseIndex.contains frm = true) :
    handlerTailV2 s2 frm body today now tw = (s2, noContent tw, Outcome.silent) := by
  unfold handlerTailV2
  dsimp only
  rw [if_neg (by simpa using hwl), guardP3_blocked s2 frm body now hb, if_pos (by rfl)]

/-- A non-whitelisted, valid-format, unblocked sender whose burst bucket is
full is silenced by the later-draft tail and lands on `abuse:index`. -/
theorem handlerTailV2_burst (s2 : Store) (frm body today : String) (now : Nat)
    (tw : List String)
    (hwl : s2.whitelist.contains frm = false)
    (hus : isUSFormat frm = true)
    (hnb : s2.abuseIndex.contains frm = false)
    (hburst : MAX_MESSAGES_PER_NUMBER ≤ s2.burst frm (now / (BURST_WINDOW_SECONDS * 1000))) :
    (handlerTailV2 s2 frm body today now tw).2.2 = Outcome.silent ∧
    (handlerTailV2 s2 frm body today now tw).1.abuseIndex.contains frm = true := by
  have hg := guardP3_burst s2 frm body now hus hnb hburst
  unfold handlerTailV2
  dsimp only
  rw [if_neg (by simpa using hwl), if_pos (by simp [hg.1])]
  exact ⟨rfl, hg.2⟩

/-- The later-draft tail keeps every existing `abuse:index` member. -/
theorem handlerTailV2_abuse_mono (s2 : Store) (frm body today : String) (now : Nat)
    (tw : List String) (x : String)
    (hx : s2.abuseIndex.contains x = true) :
    (handlerTailV2 s2 frm body today now tw).1.abuseIndex.contains x = true := by
  have hg := guardP3_abuse_mono s2 frm body now x hx
  unfold handlerTailV2
  dsimp only
  by_cases h1 : s2.whitelist.contains frm = true
  · rw [if_pos h1]; exact hx
  · rw [if_neg h1]
    by_cases h2 : (!(runUnknownAbuseGuardsP3 s2 frm body now).2) = true
    · rw [if_pos h2]; exact hg
    · rw [if_neg h2]
      by_cases h3 : GLOBAL_MAX_PER_DAY ≠ 0 ∧
          GLOBAL_MAX_PER_DAY ≤ (runUnknownAbuseGuardsP3 s2 frm body now).1.rlGlobal today
      · rw [if_pos h3]; exact hg
      · rw [if_neg h3]
        by_cases h4 : (runUnknownAbuseGuardsP3 s2 frm body now).1.hashLast frm ≠ 0 ∧
            now - (runUnknownAbuseGuardsP3 s2 frm body now).1.hashLast frm <
              MIN_REPLY_COOLDOWN_MIN * 60 * 1000
        · rw [if_pos h4]; exact hg
        · rw [if_neg h4]
          by_cases h5 : MAX_PER_NUMBER_PER_DAY ≠ 0 ∧
              MAX_PER_NUMBER_PER_DAY ≤ (runUnknownAbuseGuardsP3 s2 frm body now).1.hashCount frm
          · rw [if_pos h5]; exact hg
          · rw [if_neg h5]; exact hg

/-- Exhaustive description of the later-draft handler's prefix: it either
records an opt-out and ends silent, answers help, ends silent from the
opt-out/keyword gates, or falls through to `handlerTailV2` — in each case
with a store that differs from the input only by opt-out bookkeeping. -/
theorem handlerV2_cases (kw : String) (s : Store) (frm body today : String) (now : Nat) :
    handlerV2 kw s frm body today now = (recordOptOut s frm, noContent [], Outcome.silent) ∨
    (handlerV2 kw s frm body today now = (s, okResp [HELP_MESSAGE], Outcome.replyHelp) ∧
      someIncludes HELP_WORDS (upperJS body) = true) ∨
    (∃ s2, (s2 = s ∨ s2 = clearOptOut s frm ∨ s2 = clearOptOut (clearOptOut s frm) frm) ∧
      handlerV2 kw s frm body today now = (s2, noContent [], Outcome.silent)) ∨
    (∃ s2, (s2 = s ∨ s2 = clearOptOut s frm ∨ s2 = clearOptOut (clearOptOut s frm) frm) ∧
      handlerV2 kw s frm body today now = handlerTailV2 s2 frm body today now []) := by
  unfold handlerV2
  dsimp only
  by_cases h1 : someIncludes OPT_OUTS (upperJS body) = true
  · rw [if_pos h1]; exact Or.inl rfl
  · rw [if_neg h1]
    by_cases h2 : someIncludes HELP_WORDS (upperJS body) = true
    · rw [if_pos h2]; exact Or.inr (Or.inl ⟨rfl, h2⟩)
    · rw [if_neg h2]
      by_cases hoi : someIncludes OPT_INS (upperJS body) = true
      · rw [if_pos hoi]
        by_cases hc : (isOptedOut (clearOptOut s frm) frm &&
            !(ALLOW_PASSWORD_REJOIN && !(kw == "") && includes (upperJS body) kw)) = true
        · rw [if_pos hc]
          exact Or.inr (Or.inr (Or.inl ⟨clearOptOut s frm, Or.inr (Or.inl rfl), rfl⟩))
        · rw [if_neg hc]
          by_cases hoo : isOptedOut (clearOptOut s frm) frm = true
          · rw [if_pos hoo]
            by_cases hg : (!(kw == "") && !(includes (upperJS body) kw)) = true
            · rw [if_pos hg]
              exact Or.inr (Or.inr (Or.inl ⟨_, Or.inr (Or.inr rfl), rfl⟩))
            · rw [if_neg hg]
              exact Or.inr (Or.inr (Or.inr ⟨_, Or.inr (Or.inr rfl), rfl⟩))
          · rw [if_neg hoo]
            by_cases hg : (!(kw == "") && !(includes (upperJS body) kw)) = true
            · rw [if_pos hg]
              exact Or.inr (Or.inr (Or.inl ⟨_, Or.inr (Or.inl rfl), rfl⟩))
            · rw [if_neg hg]
              exact Or.inr (Or.inr (Or.inr ⟨_, Or.inr (Or.inl rfl), rfl⟩))
      · rw [if_neg hoi]
        by_cases hc : (isOptedOut s frm &&
            !(ALLOW_PASSWORD_REJOIN && !(kw == "") && includes (upperJS body) kw)) = true
        · rw [if_pos hc]
          exact Or.inr (Or.inr (Or.inl ⟨s, Or.inl rfl, rfl⟩))
        · rw [if_neg hc]
          by_cases hoo : isOptedOut s frm = true
          · rw [if_pos hoo]
            by_cases hg : (!(kw == "") && !(includes (upperJS body) kw)) = true
            · rw [if_pos hg]
              exact Or.inr (Or.inr (Or.inl ⟨_, Or.inr (Or.inl rfl), rfl⟩))
            · rw [if_neg hg]
              exact Or.inr (Or.inr (Or.inr ⟨_, Or.inr (Or.inl rfl), rfl⟩))
          · rw [if_neg hoo]
            by_cases hg : (!(kw == "") && !(includes (upperJS body) kw)) = true
            · rw [if_pos hg]
              exact Or.inr (Or.inr (Or.inl ⟨_, Or.inl rfl, rfl⟩))
            · rw [if_neg hg]
              exact Or.inr (Or.inr (Or.inr ⟨_, Or.inl rfl, rfl⟩))

/-- Claim C2 (amended): for a sender that is not whitelisted and not
blocked, a message that reaches the abuse guard after more than the burst
limit of 5 messages in the same 60-second bucket is silenced and the sender
is added to the permanent `abuse:index` block record; afterwards every
message that does not contain a help keyword is silenced, and no pipeline
path ever removes a sender from the block record, so the block lasts until
an external unblock.  (A help-keyword message still gets the help reply;
see the counterexample.) -/
theorem burst_permanent_block_c2 :
    (∀ (kw : String) (s : Store) (frm body today : String) (now : Nat),
      someIncludes OPT_OUTS (upperJS body) = false →
      someIncludes HELP_WORDS (upperJS body) = false →
      s.optout frm = false →
      (kw = "" ∨ includes (upperJS body) kw = true) →
      s.whitelist.contains frm = false →
      isUSFormat frm = true →
      s.abuseIndex.contains frm = false →
      MAX_MESSAGES_PER_NUMBER ≤ s.burst frm (now / (BURST_WINDOW_SECONDS * 1000)) →
      (handlerV2 kw s frm body today now).2.2 = Outcome.silent ∧
      (handlerV2 kw s frm body today now).1.abuseIndex.contains frm = true) ∧
    (∀ (kw : String) (s : Store) (frm body today : String) (now : Nat),
      someIncludes HELP_WORDS (upperJS body) = false →
      s.whitelist.contains frm = false →
      s.abuseIndex.contains frm = true →
      (handlerV2 kw s frm body today now).2.2 = Outcome.silent) ∧
    (∀ (kw : String) (s : Store) (frm body today : String) (now : Nat) (x : String),
      s.abuseIndex.contains x = true →
      (handlerV2 kw s frm body today now).1.abuseIndex.contains x = true) := by
  refine ⟨?_, ?_, ?_⟩
  · intro kw s frm body today now hstop hhelp hopt hgate hwl hus hnb hburst
    unfold handlerV2
    dsimp only
    rw [if_neg (by simp [hstop]), if_neg (by simp [hhelp])]
    by_cases hoi : someIncludes OPT_INS (upperJS body) = true
    · rw [if_pos hoi]
      have hoo : isOptedOut (clearOptOut s frm) frm = false := by
        simp [isOptedOut, clearOptOut]
      have hrej : ¬((isOptedOut (clearOptOut s frm) frm &&
          !(ALLOW_PASSWORD_REJOIN && !(kw == "") && includes (upperJS body) kw)) = true) := by
        simp [hoo]
      have hsel : ¬(isOptedOut (clearOptOut s frm) frm = true) := by simp [hoo]
      rw [if_neg hrej, if_neg hsel]
      rcases hgate with rfl | hg
      · rw [if_neg (show ¬((!("" == "") && !(includes (upperJS body) "")) = true) by simp)]
        exact handlerTailV2_burst _ _ _ _ _ _ hwl hus hnb hburst
      · rw [if_neg (show ¬((!(kw == "") && !(includes (upperJS body) kw)) = true) by
          simp [hg])]
        exact handlerTailV2_burst _ _ _ _ _ _ hwl hus hnb hburst
    · rw [if_neg hoi]
      have hoo : isOptedOut s frm = false := hopt
      have hrej : ¬((isOptedOut s frm &&
          !(ALLOW_PASSWORD_REJOIN && !(kw == "") && includes (upperJS body) kw)) = true) := by
        simp [hoo]
      have hsel : ¬(isOptedOut s frm = true) := by simp [hoo]
      rw [if_neg hrej, if_neg hsel]
      rcases hgate with rfl | hg
      · rw [if_neg (show ¬((!("" == "") && !(includes (upperJS body) "")) = true) by simp)]
        exact handlerTailV2_burst _ _ _ _ _ _ hwl hus hnb hburst
      · rw [if_neg (show ¬((!(kw == "") && !(includes (upperJS body) kw)) = true) by
          simp [hg])]
        exact handlerTailV2_burst _ _ _ _ _ _ hwl hus hnb hburst
  · intro kw s frm body today now hhelp hwl hblocked
    rcases handlerV2_cases kw s frm body today now with h | ⟨h, hh⟩ | ⟨s2, hs2, h⟩ | ⟨s2, hs2, h⟩
    · rw [h]
    · exact absurd hh (by simp [hhelp])
    · rw [h]
    · rw [h]
      have hwl2 : s2.whitelist.contains frm = false := by
        rcases hs2 with rfl | rfl | rfl <;> exact hwl
      have hb2 : s2.abuseIndex.contains frm = true := by
        rcases hs2 with rfl | rfl | rfl <;> exact hblocked
      rw [handlerTailV2_blocked s2 frm body today now [] hwl2 hb2]
  · intro kw s frm body today now x hx
    rcases handlerV2_cases kw s frm body today now with h | ⟨h, _⟩ | ⟨s2, hs2, h⟩ | ⟨s2, hs2, h⟩
    · rw [h]; exact hx
    · rw [h]; exact hx
    · rw [h]
      rcases hs2 with rfl | rfl | rfl <;> exact hx
    · rw [h]
      have hx2 : s2.abuseIndex.contains x = true := by
        rcases hs2 with rfl | rfl | rfl <;> exact hx
      exact handlerTailV2_abuse_mono s2 frm body today now [] x hx2

/-- Counterexample for C2 as stated: a permanently blocked sender texting
`HELP` receives the help reply, not `silent` — the help check runs before
the blocklist is consulted. -/
theorem burst_permanent_block_c2_counterexample :
    blockedStore.abuseIndex.contains "+15550001111" = true ∧
    blockedStore.whitelist.contains "+15550001111" = false ∧
    (handlerV2 "" blockedStore "+15550001111" "HELP" "2025-01-01" 0).2.2 =
      Outcome.replyHelp := by
  decide

/-- Witness for C2 (amended): the sixth message inside one burst bucket is
silenced and the sender lands on the permanent blocklist. -/
theorem burst_permanent_block_c2_witness :
    (handlerV2 "" burstStore "+15550003333" "hi" "2025-01-01" 0).2.2 = Outcome.silent ∧
    (handlerV2 "" burstStore "+15550003333" "hi" "2025-01-01" 0).1.abuseIndex.contains
      "+15550003333" = true :=
  burst_permanent_block_c2.1 "" burstStore "+15550003333" "hi" "2025-01-01" 0
    (by decide) (by decide) (by decide) (Or.inl rfl) (by decide) (by decide) (by decide)
    (by decide)

end PasswordResponder
